import Mathlib

/-!
Shallow embedding of `severity_calculator.py` from the trackshift2025
repository (F1 Tyre Visual Difference Engine, python-service).

Floats are modelled as rationals; Python dicts with known keys are
modelled as structures whose fields are `Option`-valued (a `none` field
is a missing key, and `Option.getD` is `dict.get(key, default)`);
`frame_results` sequences are lists. File output and printing in
`calculate_overall_severity` are side effects outside the scope of the
claims and are not modelled.
-/

namespace SeverityCalculator

/-- Static table `DAMAGE_TYPE_SEVERITY` from the source (0-1 weights). -/
def DAMAGE_TYPE_SEVERITY : List (String × ℚ) :=
  [("blistering", 7/10), ("micro-cracks", 1/2), ("grain", 2/5),
   ("cuts", 4/5), ("flat-spots", 9/10), ("chunking", 1)]

/-- Python `dict.get(k, dflt)` over an association list. -/
def dictGet (d : List (String × ℚ)) (k : String) (dflt : ℚ) : ℚ :=
  match d.find? (fun p => p.1 == k) with
  | some p => p.2
  | none => dflt

/-- Weight factor `CRACK_DENSITY_WEIGHT = 0.40`. -/
def CRACK_DENSITY_WEIGHT : ℚ := 40/100

/-- Weight factor `DEPTH_WEIGHT = 0.30`. -/
def DEPTH_WEIGHT : ℚ := 30/100

/-- Weight factor `DAMAGE_TYPE_WEIGHT = 0.30`. -/
def DAMAGE_TYPE_WEIGHT : ℚ := 30/100

/-- `normalize_crack_density`: clamp `crack_density / max_density` at 1. -/
def normalize_crack_density (crack_density max_density : ℚ) : ℚ :=
  min (crack_density / max_density) 1

/-- `normalize_depth`: clamp `depth_mm / max_depth` at 1. -/
def normalize_depth (depth_mm max_depth : ℚ) : ℚ :=
  min (depth_mm / max_depth) 1

/-- `calculate_damage_type_severity`: 0 on the empty list, otherwise the
Python `max` of the per-label weights, unknown labels weighing 0.5. -/
def calculate_damage_type_severity (damage_types : List String) : ℚ :=
  match damage_types.map (fun t => dictGet DAMAGE_TYPE_SEVERITY t (1/2)) with
  | [] => 0
  | s :: rest => rest.foldl max s

/-- `calculate_severity_score`: weighted 0-100 severity score. -/
def calculate_severity_score (crack_density depth_mm : ℚ)
    (damage_types : List String) : ℚ :=
  let crack_score := normalize_crack_density crack_density 10
  let depth_score := normalize_depth depth_mm 5
  let damage_type_score := calculate_damage_type_severity damage_types
  (crack_score * CRACK_DENSITY_WEIGHT + depth_score * DEPTH_WEIGHT +
    damage_type_score * DAMAGE_TYPE_WEIGHT) * 100

/-- Return dictionary of `calculate_frame_severity`. -/
structure FrameSeverity where
  severity_score : ℚ
  crack_density_score : ℚ
  depth_score : ℚ
  damage_type_score : ℚ
  deriving Repr, DecidableEq

/-- `calculate_frame_severity`: per-frame severity plus component scores. -/
def calculate_frame_severity (crack_density depth_mm : ℚ)
    (damage_types : List String) : FrameSeverity :=
  let crack_score := normalize_crack_density crack_density 10
  let depth_score := normalize_depth depth_mm 5
  let damage_type_score := calculate_damage_type_severity damage_types
  let severity_score := calculate_severity_score crack_density depth_mm damage_types
  { severity_score := severity_score,
    crack_density_score := crack_score * 100,
    depth_score := depth_score * 100,
    damage_type_score := damage_type_score * 100 }

/-- One element of a crack-detection `frame_results` list. -/
structure CrackFrame where
  crack_density : Option ℚ
  deriving Repr, DecidableEq

/-- One element of a depth-estimation `frame_results` list. -/
structure DepthFrame where
  max_depth_mm : Option ℚ
  deriving Repr, DecidableEq

/-- One element of a damage-classification `frame_results` list. -/
structure DamageFrame where
  damage_types : Option (List String)
  deriving Repr, DecidableEq

/-- The `crack_results` input dictionary. -/
structure CrackResults where
  average_crack_density : Option ℚ
  frame_results : Option (List CrackFrame)
  deriving Repr, DecidableEq

/-- The `depth_results` input dictionary. -/
structure DepthResults where
  max_depth_estimate_mm : Option ℚ
  frame_results : Option (List DepthFrame)
  deriving Repr, DecidableEq

/-- The `damage_results` input dictionary. -/
structure DamageResults where
  detected_damage_types : Option (List String)
  frame_results : Option (List DamageFrame)
  deriving Repr, DecidableEq

/-- One point of the severity timeline. -/
structure TimelinePoint where
  rotation_angle : ℚ
  severity : ℚ
  crack_density_score : ℚ
  depth_score : ℚ
  damage_type_score : ℚ
  deriving Repr, DecidableEq

/-- Loop body of `generate_severity_timeline`: the timeline point built
for index `i` out of `num_frames` (Python frame access `frames[i] if
i < len(frames) else \x7b\x7d` is `List.getD` with an all-missing frame). -/
def timeline_point (crack_frames : List CrackFrame) (depth_frames : List DepthFrame)
    (damage_frames : List DamageFrame) (num_frames i : ℕ) : TimelinePoint :=
  let crack_data := crack_frames.getD i ⟨none⟩
  let depth_data := depth_frames.getD i ⟨none⟩
  let damage_data := damage_frames.getD i ⟨none⟩
  let crack_density := crack_data.crack_density.getD 0
  let depth_mm := depth_data.max_depth_mm.getD 0
  let damage_types := damage_data.damage_types.getD []
  let frame_severity := calculate_frame_severity crack_density depth_mm damage_types
  let rotation_angle := ((i : ℚ) / (num_frames : ℚ)) * 360
  { rotation_angle := rotation_angle,
    severity := frame_severity.severity_score,
    crack_density_score := frame_severity.crack_density_score,
    depth_score := frame_severity.depth_score,
    damage_type_score := frame_severity.damage_type_score }

/-- `generate_severity_timeline`: positional join of the three
`frame_results` lists over the first `num_frames = min` of the lengths. -/
def generate_severity_timeline (crack_results : CrackResults)
    (depth_results : DepthResults) (damage_results : DamageResults) :
    List TimelinePoint :=
  let crack_frames := crack_results.frame_results.getD []
  let depth_frames := depth_results.frame_results.getD []
  let damage_frames := damage_results.frame_results.getD []
  let num_frames := min (min crack_frames.length depth_frames.length)
    damage_frames.length
  if num_frames = 0 then []
  else
    (List.range num_frames).map
      (timeline_point crack_frames depth_frames damage_frames num_frames)

/-- The `num_frames` value computed inside `generate_severity_timeline`. -/
def num_frames_of (crack_results : CrackResults) (depth_results : DepthResults)
    (damage_results : DamageResults) : ℕ :=
  min (min (crack_results.frame_results.getD []).length
      (depth_results.frame_results.getD []).length)
    (damage_results.frame_results.getD []).length

/-- `get_recommended_action`: threshold rules on the 0-100 score. -/
def get_recommended_action (severity_score : ℚ) : String :=
  if severity_score > 80 then "replace-immediately"
  else if severity_score >= 50 then "monitor-next-stint"
  else "safe-qualifying-only"

/-- The `timeline_statistics` sub-dictionary of the report. -/
structure TimelineStatistics where
  max_severity : ℚ
  min_severity : ℚ
  average_severity : ℚ
  deriving Repr, DecidableEq

/-- The `component_scores` sub-dictionary of the report. -/
structure ComponentScores where
  crack_density_score : ℚ
  depth_score : ℚ
  damage_type_score : ℚ
  deriving Repr, DecidableEq

/-- The `input_metrics` sub-dictionary of the report. -/
structure InputMetrics where
  average_crack_density : ℚ
  max_depth_mm : ℚ
  damage_types : List String
  deriving Repr, DecidableEq

/-- The severity-analysis report dictionary. -/
structure SeverityAnalysis where
  overall_severity_score : ℚ
  recommended_action : String
  component_scores : ComponentScores
  severity_timeline : List TimelinePoint
  timeline_statistics : TimelineStatistics
  input_metrics : InputMetrics
  deriving Repr, DecidableEq

/-- `calculate_overall_severity`: aggregate score, timeline, timeline
statistics (Python `max`/`min`/`np.mean`, falling back to the aggregate
score on an empty timeline), recommended action and input echo. -/
def calculate_overall_severity (crack_results : CrackResults)
    (depth_results : DepthResults) (damage_results : DamageResults) :
    SeverityAnalysis :=
  let avg_crack_density := crack_results.average_crack_density.getD 0
  let max_depth_mm := depth_results.max_depth_estimate_mm.getD 0
  let damage_types := damage_results.detected_damage_types.getD []
  let overall_severity :=
    calculate_severity_score avg_crack_density max_depth_mm damage_types
  let crack_score := normalize_crack_density avg_crack_density 10 * 100
  let depth_score := normalize_depth max_depth_mm 5 * 100
  let damage_type_score := calculate_damage_type_severity damage_types * 100
  let timeline :=
    generate_severity_timeline crack_results depth_results damage_results
  let stats : TimelineStatistics :=
    match timeline with
    | [] => { max_severity := overall_severity,
              min_severity := overall_severity,
              average_severity := overall_severity }
    | p :: rest =>
      let sevs := rest.map TimelinePoint.severity
      { max_severity := sevs.foldl max p.severity,
        min_severity := sevs.foldl min p.severity,
        average_severity := (p.severity + sevs.sum) / ((rest.length : ℚ) + 1) }
  let recommended_action := get_recommended_action overall_severity
  { overall_severity_score := overall_severity,
    recommended_action := recommended_action,
    component_scores :=
      { crack_density_score := crack_score,
        depth_score := depth_score,
        damage_type_score := damage_type_score },
    severity_timeline := timeline,
    timeline_statistics := stats,
    input_metrics :=
      { average_crack_density := avg_crack_density,
        max_depth_mm := max_depth_mm,
        damage_types := damage_types } }

/-- Weight of a single label: table value, or the 0.5 fallback of
`DAMAGE_TYPE_SEVERITY.get(damage_type, 0.5)` for unknown labels. -/
def damage_weight (t : String) : ℚ := dictGet DAMAGE_TYPE_SEVERITY t (1/2)

/-! ### Helper lemmas -/

theorem le_foldl_max (a : ℚ) (l : List ℚ) : a ≤ l.foldl max a := by
  induction l generalizing a with
  | nil => exact le_refl a
  | cons x xs ih => exact le_trans (le_max_left a x) (ih (max a x))

theorem mem_le_foldl_max (a x : ℚ) (l : List ℚ) (hx : x ∈ l) :
    x ≤ l.foldl max a := by
  induction l generalizing a with
  | nil => cases hx
  | cons y ys ih =>
    rcases List.mem_cons.mp hx with h | h
    · subst h
      exact le_trans (le_max_right a x) (le_foldl_max _ _)
    · exact ih _ h

theorem foldl_max_eq_or_mem (a : ℚ) (l : List ℚ) :
    l.foldl max a = a ∨ l.foldl max a ∈ l := by
  induction l generalizing a with
  | nil => exact Or.inl rfl
  | cons x xs ih =>
    rcases ih (max a x) with h | h
    · rw [List.foldl_cons, h]
      rcases max_choice a x with h1 | h1
      · exact Or.inl h1
      · right
        rw [h1]
        exact List.mem_cons_self x xs
    · right
      rw [List.foldl_cons]
      exact List.mem_cons_of_mem x h

theorem foldl_min_le (a : ℚ) (l : List ℚ) : l.foldl min a ≤ a := by
  induction l generalizing a with
  | nil => exact le_refl a
  | cons x xs ih => exact le_trans (ih (min a x)) (min_le_left a x)

theorem foldl_min_le_mem (a x : ℚ) (l : List ℚ) (hx : x ∈ l) :
    l.foldl min a ≤ x := by
  induction l generalizing a with
  | nil => cases hx
  | cons y ys ih =>
    rcases List.mem_cons.mp hx with h | h
    · subst h
      exact le_trans (foldl_min_le (min a x) ys) (min_le_right a x)
    · exact ih _ h

theorem foldl_min_eq_or_mem (a : ℚ) (l : List ℚ) :
    l.foldl min a = a ∨ l.foldl min a ∈ l := by
  induction l generalizing a with
  | nil => exact Or.inl rfl
  | cons x xs ih =>
    rcases ih (min a x) with h | h
    · rw [List.foldl_cons, h]
      rcases min_choice a x with h1 | h1
      · exact Or.inl h1
      · right
        rw [h1]
        exact List.mem_cons_self x xs
    · right
      rw [List.foldl_cons]
      exact List.mem_cons_of_mem x h

theorem calculate_damage_type_severity_cons (t : String) (rest : List String) :
    calculate_damage_type_severity (t :: rest) =
      (rest.map damage_weight).foldl max (damage_weight t) := rfl

theorem generate_severity_timeline_eq (cr : CrackResults) (dr : DepthResults)
    (dm : DamageResults) :
    generate_severity_timeline cr dr dm =
      (List.range (num_frames_of cr dr dm)).map
        (timeline_point (cr.frame_results.getD []) (dr.frame_results.getD [])
          (dm.frame_results.getD []) (num_frames_of cr dr dm)) := by
  by_cases h : num_frames_of cr dr dm = 0
  · rw [h]
    simp only [generate_severity_timeline]
    rw [if_pos (by exact h)]
    simp
  · simp only [generate_severity_timeline]
    rw [if_neg (by exact h)]
    rfl

theorem generate_severity_timeline_length (cr : CrackResults) (dr : DepthResults)
    (dm : DamageResults) :
    (generate_severity_timeline cr dr dm).length = num_frames_of cr dr dm := by
  rw [generate_severity_timeline_eq]
  simp

theorem getD_take_of_lt {α : Type} (l : List α) (d : α) (n i : ℕ) (h : i < n) :
    (l.take n).getD i d = l.getD i d := by
  simp only [List.getD, List.get?_eq_getElem?]
  rw [List.getElem?_take_of_lt h]

/-! ### Claim theorems -/

/-- C1: `calculate_damage_type_severity` returns 0.0 on the empty
collection, and on a non-empty collection returns the maximum of the
per-label weights from the static table (blistering 0.70, micro-cracks
0.50, grain 0.40, cuts 0.80, flat-spots 0.90, chunking 1.00, any unknown
label 0.50) — in particular 1.0 on ["chunking"] and 0.8 on
["grain", "cuts", "micro-cracks"], not their average or sum. -/
theorem C1_damage_type_severity_is_max :
    calculate_damage_type_severity [] = 0 ∧
    damage_weight "blistering" = 7/10 ∧
    damage_weight "micro-cracks" = 1/2 ∧
    damage_weight "grain" = 2/5 ∧
    damage_weight "cuts" = 4/5 ∧
    damage_weight "flat-spots" = 9/10 ∧
    damage_weight "chunking" = 1 ∧
    damage_weight "some-unknown-label" = 1/2 ∧
    (∀ l : List String, l ≠ [] →
      (∃ t ∈ l, calculate_damage_type_severity l = damage_weight t) ∧
        ∀ t ∈ l, damage_weight t ≤ calculate_damage_type_severity l) ∧
    calculate_damage_type_severity ["chunking"] = 1 ∧
    calculate_damage_type_severity ["grain", "cuts", "micro-cracks"] = 4/5 := by
  have hgrain : damage_weight "grain" = 2/5 := rfl
  have hcuts : damage_weight "cuts" = 4/5 := rfl
  have hmicro : damage_weight "micro-cracks" = 1/2 := rfl
  refine ⟨rfl, rfl, rfl, rfl, rfl, rfl, rfl, rfl, ?_, rfl, ?_⟩
  case refine_2 =>
    rw [calculate_damage_type_severity_cons]
    simp only [List.map_cons, List.map_nil, List.foldl_cons, List.foldl_nil,
      hgrain, hcuts, hmicro]
    norm_num [max_def]
  intro l hl
  rcases l with _ | ⟨t, rest⟩
  · exact absurd rfl hl
  · rw [calculate_damage_type_severity_cons]
    constructor
    · rcases foldl_max_eq_or_mem (damage_weight t) (rest.map damage_weight) with h | h
      · exact ⟨t, List.mem_cons_self t rest, h⟩
      · rcases List.mem_map.mp h with ⟨x, hx, hx2⟩
        exact ⟨x, List.mem_cons_of_mem t hx, hx2.symm⟩
    · intro u hu
      rcases List.mem_cons.mp hu with h | h
      · rw [h]
        exact le_foldl_max _ _
      · exact mem_le_foldl_max _ _ _ (List.mem_map_of_mem damage_weight h)

/-- C1 witness: the characterization applied to the concrete non-empty
collection ["chunking"]. -/
theorem C1_damage_type_severity_is_max_witness :
    (∃ t ∈ ["chunking"],
        calculate_damage_type_severity ["chunking"] = damage_weight t) ∧
      ∀ t ∈ ["chunking"],
        damage_weight t ≤ calculate_damage_type_severity ["chunking"] :=
  C1_damage_type_severity_is_max.2.2.2.2.2.2.2.2.1 ["chunking"] (by decide)

/-- C2: `get_recommended_action` returns replace-immediately exactly for
scores strictly above 80, monitor-next-stint exactly for scores in
[50, 80], and safe-qualifying-only exactly for scores below 50; both
boundary scores 80.0 and 50.0 map to monitor-next-stint. -/
theorem C2_recommended_action_boundaries :
    (∀ s : ℚ,
      (get_recommended_action s = "replace-immediately" ↔ 80 < s) ∧
      (get_recommended_action s = "monitor-next-stint" ↔ 50 ≤ s ∧ s ≤ 80) ∧
      (get_recommended_action s = "safe-qualifying-only" ↔ s < 50)) ∧
    get_recommended_action 80 = "monitor-next-stint" ∧
    get_recommended_action 50 = "monitor-next-stint" := by
  refine ⟨fun s => ?_, by norm_num [get_recommended_action],
    by norm_num [get_recommended_action]⟩
  unfold get_recommended_action
  split_ifs with h1 h2
  · exact ⟨iff_of_true rfl h1,
      iff_of_false (by decide) (fun hc => absurd h1 (not_lt.mpr hc.2)),
      iff_of_false (by decide) (fun hc => by linarith)⟩
  · exact ⟨iff_of_false (by decide) h1,
      iff_of_true rfl ⟨h2, not_lt.mp h1⟩,
      iff_of_false (by decide) (not_lt.mpr h2)⟩
  · exact ⟨iff_of_false (by decide) h1,
      iff_of_false (by decide) (fun hc => h2 hc.1),
      iff_of_true rfl (not_le.mp h2)⟩

/-- C3: the three component weights sum to exactly 1, and the fully
saturated input (crack_density=10, depth_mm=5, damage_types=[chunking])
scores exactly 100. -/
theorem C3_weights_sum_to_one :
    CRACK_DENSITY_WEIGHT + DEPTH_WEIGHT + DAMAGE_TYPE_WEIGHT = 1 ∧
    calculate_severity_score 10 5 ["chunking"] = 100 := by
  have hchunk : calculate_damage_type_severity ["chunking"] = 1 := rfl
  constructor
  · norm_num [CRACK_DENSITY_WEIGHT, DEPTH_WEIGHT, DAMAGE_TYPE_WEIGHT]
  · norm_num [calculate_severity_score, normalize_crack_density, normalize_depth,
      hchunk, CRACK_DENSITY_WEIGHT, DEPTH_WEIGHT, DAMAGE_TYPE_WEIGHT]

/-- C7: both normalizers equal min(v/ceiling, 1), are monotonically
non-decreasing, and saturate at exactly 1 for inputs at or above their
ceilings (10.0 for crack density, 5.0 for depth), with no error path. -/
theorem C7_normalizers :
    (∀ v : ℚ, 0 ≤ v →
      normalize_crack_density v 10 = min (v/10) 1 ∧
      normalize_depth v 5 = min (v/5) 1) ∧
    (∀ v w : ℚ, v ≤ w →
      normalize_crack_density v 10 ≤ normalize_crack_density w 10 ∧
      normalize_depth v 5 ≤ normalize_depth w 5) ∧
    (∀ v : ℚ, 10 ≤ v → normalize_crack_density v 10 = 1) ∧
    (∀ v : ℚ, 5 ≤ v → normalize_depth v 5 = 1) := by
  refine ⟨fun v _ => ⟨rfl, rfl⟩, fun v w hvw => ⟨?_, ?_⟩, fun v hv => ?_,
    fun v hv => ?_⟩
  · exact min_le_min ((div_le_div_iff_of_pos_right (by norm_num)).mpr hvw) le_rfl
  · exact min_le_min ((div_le_div_iff_of_pos_right (by norm_num)).mpr hvw) le_rfl
  · exact min_eq_right ((le_div_iff₀ (by norm_num)).mpr (by linarith))
  · exact min_eq_right ((le_div_iff₀ (by norm_num)).mpr (by linarith))

/-- C7 witness: the characterization at the concrete inputs 3, 2 ≤ 4,
12 and 6. -/
theorem C7_normalizers_witness :
    (normalize_crack_density 3 10 = min (3/10) 1 ∧
      normalize_depth 3 5 = min (3/5) 1) ∧
    (normalize_crack_density 2 10 ≤ normalize_crack_density 4 10 ∧
      normalize_depth 2 5 ≤ normalize_depth 4 5) ∧
    normalize_crack_density 12 10 = 1 ∧ normalize_depth 6 5 = 1 :=
  ⟨C7_normalizers.1 3 (by norm_num), C7_normalizers.2.1 2 4 (by norm_num),
   C7_normalizers.2.2.1 12 (by norm_num), C7_normalizers.2.2.2 6 (by norm_num)⟩

/-- C4: the timeline has exactly num_frames = min of the three sequence
lengths points, is empty (without raising) when that min is 0, and is
unchanged when each sequence is truncated to its first num_frames
elements (positional join; excess tails silently ignored). -/
theorem C4_timeline_positional_join (cr : CrackResults) (dr : DepthResults)
    (dm : DamageResults) :
    (generate_severity_timeline cr dr dm).length = num_frames_of cr dr dm ∧
    (num_frames_of cr dr dm = 0 → generate_severity_timeline cr dr dm = []) ∧
    generate_severity_timeline cr dr dm =
      generate_severity_timeline
        ⟨cr.average_crack_density,
          some ((cr.frame_results.getD []).take (num_frames_of cr dr dm))⟩
        ⟨dr.max_depth_estimate_mm,
          some ((dr.frame_results.getD []).take (num_frames_of cr dr dm))⟩
        ⟨dm.detected_damage_types,
          some ((dm.frame_results.getD []).take (num_frames_of cr dr dm))⟩ := by
  refine ⟨generate_severity_timeline_length cr dr dm, fun h0 => ?_, ?_⟩
  · rw [generate_severity_timeline_eq, h0]
    simp
  · rw [generate_severity_timeline_eq, generate_severity_timeline_eq]
    have hn : num_frames_of
        ⟨cr.average_crack_density,
          some ((cr.frame_results.getD []).take (num_frames_of cr dr dm))⟩
        ⟨dr.max_depth_estimate_mm,
          some ((dr.frame_results.getD []).take (num_frames_of cr dr dm))⟩
        ⟨dm.detected_damage_types,
          some ((dm.frame_results.getD []).take (num_frames_of cr dr dm))⟩ =
        num_frames_of cr dr dm := by
      simp only [num_frames_of, Option.getD_some, List.length_take]
      omega
    rw [hn]
    apply List.map_congr_left
    intro i hi
    have hilt : i < num_frames_of cr dr dm := List.mem_range.mp hi
    simp only [timeline_point, Option.getD_some]
    rw [getD_take_of_lt _ _ _ _ hilt, getD_take_of_lt _ _ _ _ hilt,
      getD_take_of_lt _ _ _ _ hilt]

/-- C4 witness: the all-missing input has num_frames 0 and yields the
empty timeline. -/
theorem C4_timeline_positional_join_witness :
    generate_severity_timeline ⟨none, none⟩ ⟨none, none⟩ ⟨none, none⟩ = [] :=
  (C4_timeline_positional_join ⟨none, none⟩ ⟨none, none⟩ ⟨none, none⟩).2.1 rfl

theorem timeline_get_rotation (cr : CrackResults) (dr : DepthResults)
    (dm : DamageResults) (i : ℕ)
    (h : i < (generate_severity_timeline cr dr dm).length) :
    ((generate_severity_timeline cr dr dm).get ⟨i, h⟩).rotation_angle =
      ((i : ℚ) / (num_frames_of cr dr dm : ℚ)) * 360 := by
  rw [List.get_of_eq (generate_severity_timeline_eq cr dr dm)]
  simp [timeline_point]

/-- Concrete 10-frame crack input used for the rotation-angle claim. -/
def ten_frames_crack : CrackResults := ⟨none, some (List.replicate 10 ⟨some 0⟩)⟩

/-- Concrete 10-frame depth input used for the rotation-angle claim. -/
def ten_frames_depth : DepthResults := ⟨none, some (List.replicate 10 ⟨some 0⟩)⟩

/-- Concrete 10-frame damage input used for the rotation-angle claim. -/
def ten_frames_damage : DamageResults := ⟨none, some (List.replicate 10 ⟨some []⟩)⟩

/-- C5: the i-th of the n timeline points has rotation_angle (i/n)*360,
so angles are strictly increasing in i, lie in [0, 360), and for ten
frames they are exactly 0, 36, ..., 324. -/
theorem C5_rotation_angles :
    (∀ (cr : CrackResults) (dr : DepthResults) (dm : DamageResults) (i : ℕ)
      (h : i < (generate_severity_timeline cr dr dm).length),
      ((generate_severity_timeline cr dr dm).get ⟨i, h⟩).rotation_angle =
        ((i : ℚ) / ((generate_severity_timeline cr dr dm).length : ℚ)) * 360) ∧
    (∀ (cr : CrackResults) (dr : DepthResults) (dm : DamageResults) (i j : ℕ)
      (hi : i < (generate_severity_timeline cr dr dm).length)
      (hj : j < (generate_severity_timeline cr dr dm).length), i < j →
      ((generate_severity_timeline cr dr dm).get ⟨i, hi⟩).rotation_angle <
        ((generate_severity_timeline cr dr dm).get ⟨j, hj⟩).rotation_angle) ∧
    (∀ (cr : CrackResults) (dr : DepthResults) (dm : DamageResults),
      ∀ p ∈ generate_severity_timeline cr dr dm,
        0 ≤ p.rotation_angle ∧ p.rotation_angle < 360) ∧
    (generate_severity_timeline ten_frames_crack ten_frames_depth
        ten_frames_damage).map TimelinePoint.rotation_angle =
      [0, 36, 72, 108, 144, 180, 216, 252, 288, 324] := by
  have hpos : ∀ (cr : CrackResults) (dr : DepthResults) (dm : DamageResults)
      (i : ℕ), i < (generate_severity_timeline cr dr dm).length →
      (0 : ℚ) < (num_frames_of cr dr dm : ℚ) := by
    intro cr dr dm i hi
    rw [generate_severity_timeline_length] at hi
    exact_mod_cast lt_of_le_of_lt (Nat.zero_le i) hi
  refine ⟨fun cr dr dm i h => ?_, fun cr dr dm i j hi hj hij => ?_,
    fun cr dr dm p hp => ?_, ?_⟩
  · rw [timeline_get_rotation, generate_severity_timeline_length]
  · rw [timeline_get_rotation, timeline_get_rotation]
    have hn := hpos cr dr dm i hi
    exact mul_lt_mul_of_pos_right
      (div_lt_div_of_pos_right (by exact_mod_cast hij) hn) (by norm_num)
  · rw [generate_severity_timeline_eq] at hp
    rcases List.mem_map.mp hp with ⟨i, hir, rfl⟩
    have hilt : i < num_frames_of cr dr dm := List.mem_range.mp hir
    have hn : (0 : ℚ) < (num_frames_of cr dr dm : ℚ) := by
      exact_mod_cast Nat.pos_of_ne_zero (by omega)
    have hrot : (timeline_point (cr.frame_results.getD [])
        (dr.frame_results.getD []) (dm.frame_results.getD [])
        (num_frames_of cr dr dm) i).rotation_angle =
        ((i : ℚ) / (num_frames_of cr dr dm : ℚ)) * 360 := rfl
    rw [hrot]
    constructor
    · positivity
    · have h1 : ((i : ℚ) / (num_frames_of cr dr dm : ℚ)) < 1 :=
        (div_lt_one hn).mpr (by exact_mod_cast hilt)
      calc ((i : ℚ) / (num_frames_of cr dr dm : ℚ)) * 360 < 1 * 360 :=
          mul_lt_mul_of_pos_right h1 (by norm_num)
        _ = 360 := one_mul 360
  · rw [generate_severity_timeline_eq]
    simp only [List.map_map]
    have hfun : (TimelinePoint.rotation_angle ∘
        timeline_point (ten_frames_crack.frame_results.getD [])
          (ten_frames_depth.frame_results.getD [])
          (ten_frames_damage.frame_results.getD [])
          (num_frames_of ten_frames_crack ten_frames_depth ten_frames_damage)) =
        fun i : ℕ => ((i : ℚ) / 10) * 360 := by
      funext i
      rfl
    rw [hfun]
    have hnum : num_frames_of ten_frames_crack ten_frames_depth
        ten_frames_damage = 10 := rfl
    rw [hnum]
    simp only [List.range_succ, List.map_append, List.map_cons, List.map_nil,
      List.range_zero, List.nil_append, List.cons_append]
    norm_num

/-- C5 witness: the angle formula and strict increase applied at indices
0 and 1 of the concrete 10-frame timeline. -/
theorem C5_rotation_angles_witness :
    ((generate_severity_timeline ten_frames_crack ten_frames_depth
        ten_frames_damage).get ⟨1, by decide⟩).rotation_angle =
      (((1 : ℕ) : ℚ) / ((generate_severity_timeline ten_frames_crack
        ten_frames_depth ten_frames_damage).length : ℚ)) * 360 ∧
    ((generate_severity_timeline ten_frames_crack ten_frames_depth
        ten_frames_damage).get ⟨0, by decide⟩).rotation_angle <
      ((generate_severity_timeline ten_frames_crack ten_frames_depth
        ten_frames_damage).get ⟨1, by decide⟩).rotation_angle :=
  ⟨C5_rotation_angles.1 ten_frames_crack ten_frames_depth ten_frames_damage 1
      (by decide),
   C5_rotation_angles.2.1 ten_frames_crack ten_frames_depth ten_frames_damage
      0 1 (by decide) (by decide) (by norm_num)⟩

/-- C10: every timeline point's severity equals the weighted combination
0.40/0.30/0.30 of its own recorded component scores. -/
theorem C10_point_component_consistency :
    ∀ (cr : CrackResults) (dr : DepthResults) (dm : DamageResults),
      ∀ p ∈ generate_severity_timeline cr dr dm,
        p.severity = 40/100 * p.crack_density_score +
          30/100 * p.depth_score + 30/100 * p.damage_type_score := by
  intro cr dr dm p hp
  rw [generate_severity_timeline_eq] at hp
  rcases List.mem_map.mp hp with ⟨i, _, rfl⟩
  simp only [timeline_point, calculate_frame_severity, calculate_severity_score,
    CRACK_DENSITY_WEIGHT, DEPTH_WEIGHT, DAMAGE_TYPE_WEIGHT]
  ring

/-- C10 witness: the consistency equation at the single point of a
concrete one-frame timeline. -/
theorem C10_point_component_consistency_witness :
    ((generate_severity_timeline ⟨none, some [⟨some 3⟩]⟩ ⟨none, some [⟨some 2⟩]⟩
        ⟨none, some [⟨some ["cuts"]⟩]⟩).get ⟨0, by decide⟩).severity =
      40/100 * ((generate_severity_timeline ⟨none, some [⟨some 3⟩]⟩
        ⟨none, some [⟨some 2⟩]⟩
        ⟨none, some [⟨some ["cuts"]⟩]⟩).get ⟨0, by decide⟩).crack_density_score +
      30/100 * ((generate_severity_timeline ⟨none, some [⟨some 3⟩]⟩
        ⟨none, some [⟨some 2⟩]⟩
        ⟨none, some [⟨some ["cuts"]⟩]⟩).get ⟨0, by decide⟩).depth_score +
      30/100 * ((generate_severity_timeline ⟨none, some [⟨some 3⟩]⟩
        ⟨none, some [⟨some 2⟩]⟩
        ⟨none, some [⟨some ["cuts"]⟩]⟩).get ⟨0, by decide⟩).damage_type_score :=
  C10_point_component_consistency ⟨none, some [⟨some 3⟩]⟩ ⟨none, some [⟨some 2⟩]⟩
    ⟨none, some [⟨some ["cuts"]⟩]⟩ _ (List.get_mem _ _ _)

/-- C6: on a non-empty timeline the report's timeline statistics are the
maximum, minimum and mean of the per-point severities; on an empty
timeline all three default to the aggregate overall score (not 0). -/
theorem C6_timeline_statistics :
    ∀ (cr : CrackResults) (dr : DepthResults) (dm : DamageResults),
      ((calculate_overall_severity cr dr dm).severity_timeline = [] →
        (calculate_overall_severity cr dr dm).timeline_statistics.max_severity =
          (calculate_overall_severity cr dr dm).overall_severity_score ∧
        (calculate_overall_severity cr dr dm).timeline_statistics.min_severity =
          (calculate_overall_severity cr dr dm).overall_severity_score ∧
        (calculate_overall_severity cr dr dm).timeline_statistics.average_severity =
          (calculate_overall_severity cr dr dm).overall_severity_score) ∧
      ((calculate_overall_severity cr dr dm).severity_timeline ≠ [] →
        ((calculate_overall_severity cr dr dm).timeline_statistics.max_severity ∈
            (calculate_overall_severity cr dr dm).severity_timeline.map
              TimelinePoint.severity ∧
          ∀ x ∈ (calculate_overall_severity cr dr dm).severity_timeline.map
              TimelinePoint.severity,
            x ≤ (calculate_overall_severity cr dr dm).timeline_statistics.max_severity) ∧
        ((calculate_overall_severity cr dr dm).timeline_statistics.min_severity ∈
            (calculate_overall_severity cr dr dm).severity_timeline.map
              TimelinePoint.severity ∧
          ∀ x ∈ (calculate_overall_severity cr dr dm).severity_timeline.map
              TimelinePoint.severity,
            (calculate_overall_severity cr dr dm).timeline_statistics.min_severity ≤ x) ∧
        (calculate_overall_severity cr dr dm).timeline_statistics.average_severity =
          ((calculate_overall_severity cr dr dm).severity_timeline.map
              TimelinePoint.severity).sum /
            ((((calculate_overall_severity cr dr dm).severity_timeline.map
              TimelinePoint.severity).length : ℕ) : ℚ)) := by
  intro cr dr dm
  have htl : (calculate_overall_severity cr dr dm).severity_timeline =
      generate_severity_timeline cr dr dm := rfl
  rcases h : generate_severity_timeline cr dr dm with _ | ⟨p, rest⟩
  · constructor
    · intro _
      have hstats : (calculate_overall_severity cr dr dm).timeline_statistics =
          { max_severity := (calculate_overall_severity cr dr dm).overall_severity_score,
            min_severity := (calculate_overall_severity cr dr dm).overall_severity_score,
            average_severity := (calculate_overall_severity cr dr dm).overall_severity_score } := by
        simp only [calculate_overall_severity, h]
      rw [hstats]
      exact ⟨rfl, rfl, rfl⟩
    · intro hne
      exact absurd (htl.trans h) hne
  · constructor
    · intro he
      rw [htl, h] at he
      cases he
    · intro _
      have hstats : (calculate_overall_severity cr dr dm).timeline_statistics =
          { max_severity := (rest.map TimelinePoint.severity).foldl max p.severity,
            min_severity := (rest.map TimelinePoint.severity).foldl min p.severity,
            average_severity := (p.severity + (rest.map TimelinePoint.severity).sum) /
              ((rest.length : ℚ) + 1) } := by
        simp only [calculate_overall_severity, h]
      rw [htl, h, hstats]
      refine ⟨⟨?_, ?_⟩, ⟨?_, ?_⟩, ?_⟩
      · rcases foldl_max_eq_or_mem p.severity (rest.map TimelinePoint.severity)
          with hm | hm
        · rw [List.map_cons, hm]
          exact List.mem_cons_self _ _
        · rw [List.map_cons]
          exact List.mem_cons_of_mem _ hm
      · intro x hx
        rcases List.mem_cons.mp (List.map_cons TimelinePoint.severity p rest ▸ hx)
          with hx1 | hx1
        · rw [hx1]
          exact le_foldl_max _ _
        · exact mem_le_foldl_max _ _ _ hx1
      · rcases foldl_min_eq_or_mem p.severity (rest.map TimelinePoint.severity)
          with hm | hm
        · rw [List.map_cons, hm]
          exact List.mem_cons_self _ _
        · rw [List.map_cons]
          exact List.mem_cons_of_mem _ hm
      · intro x hx
        rcases List.mem_cons.mp (List.map_cons TimelinePoint.severity p rest ▸ hx)
          with hx1 | hx1
        · rw [hx1]
          exact foldl_min_le _ _
        · exact foldl_min_le_mem _ _ _ hx1
      · rw [List.map_cons, List.sum_cons, List.length_cons, List.length_map]
        push_cast
        ring_nf

/-- C6 witness: the empty-timeline fallback at an all-missing input, and
the mean formula at a concrete one-frame input. -/
theorem C6_timeline_statistics_witness :
    ((calculate_overall_severity ⟨none, none⟩ ⟨none, none⟩
        ⟨none, none⟩).timeline_statistics.max_severity =
      (calculate_overall_severity ⟨none, none⟩ ⟨none, none⟩
        ⟨none, none⟩).overall_severity_score) ∧
    ((calculate_overall_severity ⟨none, some [⟨some 1⟩]⟩ ⟨none, some [⟨some 1⟩]⟩
        ⟨none, some [⟨some []⟩]⟩).timeline_statistics.average_severity =
      ((calculate_overall_severity ⟨none, some [⟨some 1⟩]⟩ ⟨none, some [⟨some 1⟩]⟩
          ⟨none, some [⟨some []⟩]⟩).severity_timeline.map
            TimelinePoint.severity).sum /
        ((((calculate_overall_severity ⟨none, some [⟨some 1⟩]⟩
          ⟨none, some [⟨some 1⟩]⟩ ⟨none, some [⟨some []⟩]⟩).severity_timeline.map
            TimelinePoint.severity).length : ℕ) : ℚ)) :=
  ⟨((C6_timeline_statistics ⟨none, none⟩ ⟨none, none⟩ ⟨none, none⟩).1 rfl).1,
   ((C6_timeline_statistics ⟨none, some [⟨some 1⟩]⟩ ⟨none, some [⟨some 1⟩]⟩
      ⟨none, some [⟨some []⟩]⟩).2 (by decide)).2.2⟩

/-- C8: the report's overall score is the scorer applied once to the
aggregate inputs (average crack density, overall max depth, detected
damage-type set), and it is not the average of the per-frame timeline
severities: at a concrete input the two quantities differ. -/
theorem C8_overall_from_aggregates :
    (∀ (cr : CrackResults) (dr : DepthResults) (dm : DamageResults),
      (calculate_overall_severity cr dr dm).overall_severity_score =
        calculate_severity_score (cr.average_crack_density.getD 0)
          (dr.max_depth_estimate_mm.getD 0) (dm.detected_damage_types.getD [])) ∧
    (calculate_overall_severity ⟨some 0, some [⟨some 10⟩]⟩
        ⟨some 0, some [⟨some 0⟩]⟩
        ⟨some [], some [⟨some []⟩]⟩).overall_severity_score ≠
      (calculate_overall_severity ⟨some 0, some [⟨some 10⟩]⟩
        ⟨some 0, some [⟨some 0⟩]⟩
        ⟨some [], some [⟨some []⟩]⟩).timeline_statistics.average_severity := by
  constructor
  · intro cr dr dm
    rfl
  · have htl : generate_severity_timeline ⟨some 0, some [⟨some 10⟩]⟩
        ⟨some 0, some [⟨some 0⟩]⟩ ⟨some [], some [⟨some []⟩]⟩ =
        [timeline_point [⟨some 10⟩] [⟨some 0⟩] [⟨some []⟩] 1 0] := by
      rw [generate_severity_timeline_eq]
      rfl
    simp only [calculate_overall_severity, htl, Option.getD_some]
    simp only [timeline_point, calculate_frame_severity, List.map_nil,
      List.foldl_nil, List.sum_nil, List.length_nil]
    norm_num [calculate_severity_score, normalize_crack_density, normalize_depth,
      calculate_damage_type_severity, CRACK_DENSITY_WEIGHT, DEPTH_WEIGHT,
      DAMAGE_TYPE_WEIGHT, List.getD]

/-- Replace a missing per-frame crack density by its neutral default 0. -/
def fillCrackFrame (f : CrackFrame) : CrackFrame := ⟨some (f.crack_density.getD 0)⟩

/-- Replace a missing per-frame depth by its neutral default 0. -/
def fillDepthFrame (f : DepthFrame) : DepthFrame := ⟨some (f.max_depth_mm.getD 0)⟩

/-- Replace a missing per-frame damage list by its neutral default []. -/
def fillDamageFrame (f : DamageFrame) : DamageFrame := ⟨some (f.damage_types.getD [])⟩

/-- Fill every missing crack field (aggregate and per-frame) with its
neutral default. -/
def fillCrackResults (r : CrackResults) : CrackResults :=
  ⟨some (r.average_crack_density.getD 0),
    some ((r.frame_results.getD []).map fillCrackFrame)⟩

/-- Fill every missing depth field (aggregate and per-frame) with its
neutral default. -/
def fillDepthResults (r : DepthResults) : DepthResults :=
  ⟨some (r.max_depth_estimate_mm.getD 0),
    some ((r.frame_results.getD []).map fillDepthFrame)⟩

/-- Fill every missing damage field (aggregate and per-frame) with its
neutral default. -/
def fillDamageResults (r : DamageResults) : DamageResults :=
  ⟨some (r.detected_damage_types.getD []),
    some ((r.frame_results.getD []).map fillDamageFrame)⟩

theorem getD_map_fillCrack (l : List CrackFrame) (i : ℕ) :
    ((l.map fillCrackFrame).getD i ⟨none⟩).crack_density.getD 0 =
      (l.getD i ⟨none⟩).crack_density.getD 0 := by
  induction l generalizing i with
  | nil => rfl
  | cons x xs ih =>
    cases i with
    | zero => rfl
    | succ j =>
      rw [List.map_cons, List.getD_cons_succ, List.getD_cons_succ]
      exact ih j

theorem getD_map_fillDepth (l : List DepthFrame) (i : ℕ) :
    ((l.map fillDepthFrame).getD i ⟨none⟩).max_depth_mm.getD 0 =
      (l.getD i ⟨none⟩).max_depth_mm.getD 0 := by
  induction l generalizing i with
  | nil => rfl
  | cons x xs ih =>
    cases i with
    | zero => rfl
    | succ j =>
      rw [List.map_cons, List.getD_cons_succ, List.getD_cons_succ]
      exact ih j

theorem getD_map_fillDamage (l : List DamageFrame) (i : ℕ) :
    ((l.map fillDamageFrame).getD i ⟨none⟩).damage_types.getD [] =
      (l.getD i ⟨none⟩).damage_types.getD [] := by
  induction l generalizing i with
  | nil => rfl
  | cons x xs ih =>
    cases i with
    | zero => rfl
    | succ j =>
      rw [List.map_cons, List.getD_cons_succ, List.getD_cons_succ]
      exact ih j

theorem generate_severity_timeline_fill (cr : CrackResults) (dr : DepthResults)
    (dm : DamageResults) :
    generate_severity_timeline (fillCrackResults cr) (fillDepthResults dr)
      (fillDamageResults dm) = generate_severity_timeline cr dr dm := by
  rw [generate_severity_timeline_eq, generate_severity_timeline_eq]
  have hn : num_frames_of (fillCrackResults cr) (fillDepthResults dr)
      (fillDamageResults dm) = num_frames_of cr dr dm := by
    simp [num_frames_of, fillCrackResults, fillDepthResults, fillDamageResults]
  rw [hn]
  apply List.map_congr_left
  intro i _
  simp only [fillCrackResults, fillDepthResults, fillDamageResults,
    Option.getD_some, timeline_point]
  rw [getD_map_fillCrack, getD_map_fillDepth, getD_map_fillDamage]

/-- C9: the core is total over well-typed input with missing fields: in
both the aggregate extraction and the per-frame timeline loop, a missing
field behaves exactly as its neutral default (0.0 for crack density and
depth, the empty list for damage types), with no error path. -/
theorem C9_missing_fields_default :
    (∀ (cr : CrackResults) (dr : DepthResults) (dm : DamageResults),
      calculate_overall_severity (fillCrackResults cr) (fillDepthResults dr)
        (fillDamageResults dm) = calculate_overall_severity cr dr dm) ∧
    (∀ (cr : CrackResults) (dr : DepthResults) (dm : DamageResults),
      generate_severity_timeline (fillCrackResults cr) (fillDepthResults dr)
        (fillDamageResults dm) = generate_severity_timeline cr dr dm) := by
  refine ⟨fun cr dr dm => ?_, generate_severity_timeline_fill⟩
  simp only [calculate_overall_severity]
  rw [generate_severity_timeline_fill]
  simp only [fillCrackResults, fillDepthResults, fillDamageResults,
    Option.getD_some]

end SeverityCalculator
